import Mathlib

/-!
Shallow embedding of the Resights property-registry tools
(`app/tool/resight_api.py` and `test_resight_api.py`): the pandas-based
table normalization of `FetchResightPropertyTableTool.execute`, the
generic REST gateway `ResightApiTool.execute`, and the identifier
resolution / valuation flow of `test_resight_api`.

JSON objects are modelled as association lists, pandas DataFrames as a
column list plus rows of optional cells (`none` = missing/NaN), and the
HTTP layer as explicit response parameters.  `ToolResult`/`ToolFailure`
(whose class definitions live outside this tree) are modelled by the
`ExecResult` success/failure sum, as the spec describes them.
-/

namespace Resight

/-- JSON scalar values appearing in registry records. -/
inductive Val where
  | str (s : String)
  | int (n : Int)
  deriving DecidableEq, Repr

/-- A JSON object (python dict) as an association list; an absent key
models both a missing field and a JSON null (both give `None` under
`dict.get`). -/
abbrev Rec := List (String × Val)

/-- Python `f"{x}"` rendering of an optional value (`None` prints as
`"None"`, strings print unquoted, ints in decimal). -/
def pyStr : Option Val → String
  | none => "None"
  | some (Val.str s) => s
  | some (Val.int n) => toString n

/-- First-occurrence deduplication of column names, matching the key
union order of `pd.DataFrame(list_of_dicts)`. -/
def dedupKeys : List String → List String
  | [] => []
  | c :: cs => c :: (dedupKeys cs).filter (fun x => x ≠ c)

/-- A pandas DataFrame: named columns and rows of cells, a cell being
`none` when the value is missing (NaN). -/
structure DF where
  cols : List String
  rows : List (List (Option Val))
  deriving DecidableEq, Repr

/-- `pd.DataFrame(records)`: columns are the keys in first-appearance
order; each row looks every column up in its record. -/
def DF.fromRecords (recs : List Rec) : DF :=
  let cs := dedupKeys ((recs.map (fun r => r.map Prod.fst)).flatten)
  ⟨cs, recs.map (fun r => cs.map (fun c => r.lookup c))⟩

/-- pandas `DataFrame.empty`: true when either axis has length 0. -/
def DF.isEmptyDf (df : DF) : Bool := df.rows.isEmpty || df.cols.isEmpty

/-- pandas `DataFrame.rename(columns=m)`: each column name is mapped
through `m`, defaulting to itself. -/
def DF.rename (df : DF) (m : List (String × String)) : DF :=
  ⟨df.cols.map (fun c => ((m.lookup c).getD c)), df.rows⟩

/-- pandas scalar column assignment `df[c] = v`: overwrite the column
when present, else append it, broadcasting `v` to every row. -/
def DF.assign (df : DF) (c : String) (v : Option Val) : DF :=
  if c ∈ df.cols then
    ⟨df.cols, df.rows.map (fun r => (df.cols.zip r).map (fun p => if p.1 = c then v else p.2))⟩
  else
    ⟨df.cols ++ [c], df.rows.map (fun r => r ++ [v])⟩

/-- The `_crossjoin_key` merge of the source (add a constant key to both
frames, `pd.merge` on it, drop it): a full Cartesian product, left rows
outer, right rows inner; column names common to both sides receive the
pandas `_x`/`_y` merge suffixes. -/
def DF.crossJoin (u b : DF) : DF :=
  let common := u.cols.filter (fun c => c ∈ b.cols)
  ⟨u.cols.map (fun c => if c ∈ common then c ++ "_x" else c)
     ++ b.cols.map (fun c => if c ∈ common then c ++ "_y" else c),
   (u.rows.map (fun ru => b.rows.map (fun rb => ru ++ rb))).flatten⟩

/-- pandas column projection `df[cs]`: `none` models the `KeyError`
raised when a requested column is absent; a duplicate column name reads
from its first occurrence. -/
def DF.select (df : DF) (cs : List String) : Option DF :=
  if cs.all (fun c => decide (c ∈ df.cols)) then
    some ⟨cs, df.rows.map (fun r => cs.map (fun c => r.getD (df.cols.indexOf c) none))⟩
  else none

/-- `ALL_AVAILABLE_PROCESSED_FIELDS` from `resight_api.py`. -/
def ALL_AVAILABLE_PROCESSED_FIELDS : List String :=
  ["propertyId", "bfe_number", "bbr.units.id", "units.status",
   "bbr.units.enh020_unit_usage", "bbr.units.enh026_area_unit_total",
   "bbr.units.enh027_area_residential", "bbr.units.enh028_area_commercial",
   "bbr.units.enh031_number_rooms", "bbr.buildings.id", "timestamp"]

/-- `DEFAULT_OUTPUT_FIELDS = ALL_AVAILABLE_PROCESSED_FIELDS`. -/
def DEFAULT_OUTPUT_FIELDS : List String := ALL_AVAILABLE_PROCESSED_FIELDS

/-- The `rename_units` mapping applied to a non-empty units frame. -/
def rename_units : List (String × String) :=
  [("id", "bbr.units.id"), ("status", "units.status"),
   ("enh020_unit_usage", "bbr.units.enh020_unit_usage"),
   ("enh026_area_unit_total", "bbr.units.enh026_area_unit_total"),
   ("enh027_area_residential", "bbr.units.enh027_area_residential"),
   ("enh028_area_commercial", "bbr.units.enh028_area_commercial"),
   ("enh031_number_rooms", "bbr.units.enh031_number_rooms")]

/-- The `{"id": "bbr.buildings.id"}` rename applied to a non-empty
buildings frame. -/
def rename_buildings : List (String × String) := [("id", "bbr.buildings.id")]

/-- The parts of the parsed `/properties/{bfe}` response body the tool
reads: `data.get("id")`, `data.get("bfe_number")`, and the
`bbr.units` / `bbr.buildings` record lists (a missing `bbr` or missing
sub-collection is the empty list, as under `.get(..., [])`). -/
structure PropertyData where
  propertyId : Option Val
  bfe_number_api : Option Val
  units : List Rec
  buildings : List Rec
  deriving DecidableEq, Repr

/-- `units_df` after the conditional rename (lines 83-93). -/
def unitsDf (d : PropertyData) : DF :=
  if (DF.fromRecords d.units).isEmptyDf then DF.fromRecords d.units
  else (DF.fromRecords d.units).rename rename_units

/-- `buildings_df` after the conditional rename (lines 95-97). -/
def buildingsDf (d : PropertyData) : DF :=
  if (DF.fromRecords d.buildings).isEmptyDf then DF.fromRecords d.buildings
  else (DF.fromRecords d.buildings).rename rename_buildings

/-- `merged_df` before stamping (lines 99-107): cross join when both
frames are non-empty, the non-empty one when only one is, else the
empty frame. -/
def mergedBase (d : PropertyData) : DF :=
  if !(unitsDf d).isEmptyDf && !(buildingsDf d).isEmptyDf then
    DF.crossJoin (unitsDf d) (buildingsDf d)
  else if !(unitsDf d).isEmptyDf then unitsDf d
  else if !(buildingsDf d).isEmptyDf then buildingsDf d
  else ⟨[], []⟩

/-- Line 114: `bfe_num_from_api if bfe_num_from_api is not None else
bfe_number`. -/
def bfeStamp (bfe : Int) (d : PropertyData) : Val :=
  d.bfe_number_api.getD (Val.int bfe)

/-- `merged_df` after the identity/metadata stamping (lines 112-115). -/
def stamped (bfe : Int) (d : PropertyData) (ts : String) : DF :=
  (((mergedBase d).assign "propertyId" d.propertyId).assign
      "bfe_number" (some (bfeStamp bfe d))).assign
    "timestamp" (some (Val.str ts))

/-- The loop of lines 120-127: keep the requested fields that are both
in the catalog and present as columns, in request order. -/
def requestedCols (fields : List String) (m : DF) : List String :=
  fields.filter
    (fun f => decide (f ∈ ALL_AVAILABLE_PROCESSED_FIELDS) && decide (f ∈ m.cols))

/-- `columns_to_select` after lines 117-132; `if output_fields:` is
Python truthiness, so `None` and the empty list both take the default
branch. -/
def columnsToSelect (fields : Option (List String)) (m : DF) : List String :=
  match fields with
  | some (f :: fs) =>
      let req := requestedCols (f :: fs) m
      if req.isEmpty then
        DEFAULT_OUTPUT_FIELDS.filter (fun c => decide (c ∈ m.cols))
      else req
  | _ => DEFAULT_OUTPUT_FIELDS.filter (fun c => decide (c ∈ m.cols))

/-- The f-string of line 110. -/
def noDataMessage (bfe : Int) (pid : Option Val) : String :=
  "No BBR units or buildings data found for BFE " ++ toString bfe
    ++ ". Raw property ID: " ++ pyStr pid

/-- The f-string of line 144. -/
def noProcessMessage (bfe : Int) (pid : Option Val) : String :=
  "No data could be processed or selected for BFE " ++ toString bfe
    ++ ". Property ID: " ++ pyStr pid

/-- The f-string of the `httpx.HTTPStatusError` handler (line 150). -/
def httpErrorMessage (bfe : Int) (status : Nat) (text : String) : String :=
  "Resight API HTTP error for BFE " ++ toString bfe ++ ": "
    ++ toString status ++ " - " ++ text

/-- The f-string of the generic `except` handler (line 154), with the
exception text as a parameter. -/
def unexpectedErrorMessage (bfe : Int) (exn : String) : String :=
  "An unexpected error occurred while fetching property data for BFE "
    ++ toString bfe ++ ": " ++ exn

/-- The payload of a `ToolResult`: either a serialized row table
(`final_df.to_json(orient=records)`) or a plain message string. -/
inductive Output where
  | table (df : DF)
  | message (s : String)
  deriving DecidableEq, Repr

/-- `ToolResult` (success) versus `ToolFailure` (error string). -/
inductive ExecResult where
  | result (o : Output)
  | failure (error : String)
  deriving DecidableEq, Repr

/-- The three identity/metadata column names of lines 112-115 and 140. -/
def identityCols : List String := ["propertyId", "bfe_number", "timestamp"]

/-- `columns_to_select` after the fallback of lines 134-140: when it is
empty but the stamped frame is not, re-ensure the identity columns (a
no-op after stamping) and select those present. -/
def selectedCols (bfe : Int) (fields : Option (List String)) (d : PropertyData)
    (ts : String) : List String :=
  if (columnsToSelect fields (stamped bfe d ts)).isEmpty
      && !(stamped bfe d ts).isEmptyDf then
    identityCols.filter (fun c => decide (c ∈ (stamped bfe d ts).cols))
  else columnsToSelect fields (stamped bfe d ts)

/-- `FetchResightPropertyTableTool.execute` after a parsed 2xx response
(lines 76-147).  `ts` is the `datetime.now().isoformat()` value.  Line
142-144 returns the no-process message; the `select` `KeyError` would
land in the generic handler of line 154. -/
def executeTable (bfe : Int) (fields : Option (List String)) (d : PropertyData)
    (ts : String) : ExecResult :=
  if (mergedBase d).isEmptyDf && d.units.isEmpty && d.buildings.isEmpty then
    ExecResult.result (Output.message (noDataMessage bfe d.propertyId))
  else if (selectedCols bfe fields d ts).isEmpty && (stamped bfe d ts).isEmptyDf then
    ExecResult.result (Output.message (noProcessMessage bfe d.propertyId))
  else
    match (stamped bfe d ts).select (selectedCols bfe fields d ts) with
    | some df => ExecResult.result (Output.table df)
    | none => ExecResult.failure (unexpectedErrorMessage bfe "KeyError")

/-- httpx `Response.is_success`: `raise_for_status` raises exactly on a
non-2xx status. -/
def isSuccessStatus (s : Nat) : Bool := 200 ≤ s && s ≤ 299

/-- The whole of `FetchResightPropertyTableTool.execute` over an explicit
HTTP response: a non-2xx status takes the `HTTPStatusError` handler
(lines 149-152); an unparseable body takes the generic handler. -/
def executeFetch (bfe : Int) (fields : Option (List String)) (status : Nat)
    (text : String) (parsed : Option PropertyData) (ts : String) : ExecResult :=
  if !isSuccessStatus status then
    ExecResult.failure (httpErrorMessage bfe status text)
  else
    match parsed with
    | some d => executeTable bfe fields d ts
    | none => ExecResult.failure (unexpectedErrorMessage bfe "JSONDecodeError")

/-- Number of rows of a table output, `none` for a message or failure. -/
def outRowCount : ExecResult → Option Nat
  | ExecResult.result (Output.table df) => some df.rows.length
  | _ => none

/-- Whether a table output contains the given column. -/
def outputHasCol (e : ExecResult) (c : String) : Bool :=
  match e with
  | ExecResult.result (Output.table df) => decide (c ∈ df.cols)
  | _ => false

/-- Rows and columns line up: every row has one cell per column. -/
def DF.Aligned (df : DF) : Prop := ∀ r ∈ df.rows, r.length = df.cols.length

/-- Every cell sitting under a column named `c` holds the value `v`. -/
def DF.ColConst (df : DF) (c : String) (v : Option Val) : Prop :=
  ∀ r ∈ df.rows, ∀ p ∈ df.cols.zip r, p.1 = c → p.2 = v

/-! ### Generic REST gateway (`ResightApiTool.execute`, lines 191-210) -/

/-- The outcome of `ResightApiTool.execute`: the parsed body (kept as
raw text here, `response.json()` in the source), the synthetic 204
success marker dict `{"status": "success", "message": ...}`, or a
`ToolFailure`. -/
inductive GatewayResult where
  | payload (bodyText : String)
  | marker
  | failure (error : String)
  deriving DecidableEq, Repr

/-- The f-string of the gateway's `HTTPStatusError` handler (line 208). -/
def gatewayErrorMessage (status : Nat) (text : String) : String :=
  "Resight API HTTP error: " ++ toString status ++ " - " ++ text

/-- `ResightApiTool.execute` over an explicit HTTP response:
`raise_for_status` turns every non-2xx status into the `Upstream`
failure of line 208; a 204 yields the synthetic marker before any body
parsing (lines 204-205); any other 2xx parses and returns the body. -/
def gatewayExecute (status : Nat) (text : String) : GatewayResult :=
  if !isSuccessStatus status then
    GatewayResult.failure (gatewayErrorMessage status text)
  else if status == 204 then GatewayResult.marker
  else GatewayResult.payload text

/-! ### Identifier resolution and valuation flow (`test_resight_api.py`) -/

/-- The top-level parsed body of the property search response, keyed by
wrapper name, each key holding a list of result records. -/
abbrev SearchBody := List (String × List Rec)

/-- Python truthiness of the extracted id (`if not property_id`). -/
def falsyVal : Option Val → Bool
  | none => true
  | some (Val.str s) => s.isEmpty
  | some (Val.int n) => n == 0

/-- Outcome of `property_data.get('data', [{}])[0].get('id')` followed
by the `if not property_id` check (lines 35-43): a found id, the
"Could not find property ID in response" branch, or the `IndexError`
raised by `[0]` on an empty list (caught by the broad handler). -/
inductive ResolveOutcome where
  | found (id : Val)
  | noId
  | indexError
  deriving DecidableEq, Repr

/-- Whether resolution produced an id. -/
def ResolveOutcome.isFound : ResolveOutcome → Bool
  | ResolveOutcome.found _ => true
  | _ => false

/-- The id extraction of line 35: only the top-level `data` key is
consulted, with `[{}]` as the default when it is absent. -/
def resolvePropertyId (body : SearchBody) : ResolveOutcome :=
  match body.lookup "data" with
  | none => ResolveOutcome.noId
  | some [] => ResolveOutcome.indexError
  | some (r :: _) =>
      match r.lookup "id" with
      | some v => if falsyVal (some v) then ResolveOutcome.noId else ResolveOutcome.found v
      | none => ResolveOutcome.noId

/-- The BFE number hard-coded at line 18 of `test_resight_api.py`. -/
def test_bfe_number : String := "100407981"

/-- An HTTP request issued by `test_resight_api`. -/
inductive Request where
  | search (bfe : String)
  | valuation (propertyId : Val)
  deriving DecidableEq, Repr

/-- The `status` field of the returned report dict. -/
inductive TestStatus where
  | success
  | error
  deriving DecidableEq, Repr

/-- The `status`/`message` pair of the dict returned by
`test_resight_api` (the other keys carry payload/diagnostics). -/
structure TestReport where
  status : TestStatus
  message : String
  deriving DecidableEq, Repr

/-- `test_resight_api` over explicit responses: the property search
response (status and parsed body) and the valuation response status.
Returns the report together with the list of requests issued, in
order. -/
def testFlow (searchStatus : Nat) (searchBody : SearchBody) (valStatus : Nat) :
    TestReport × List Request :=
  let reqs := [Request.search test_bfe_number]
  if searchStatus ≠ 200 then
    (⟨TestStatus.error, "Failed to get property ID: " ++ toString searchStatus⟩, reqs)
  else
    match resolvePropertyId searchBody with
    | ResolveOutcome.noId =>
        (⟨TestStatus.error, "Could not find property ID in response"⟩, reqs)
    | ResolveOutcome.indexError =>
        (⟨TestStatus.error, "API test failed with exception"⟩, reqs)
    | ResolveOutcome.found pid =>
        let reqs := reqs ++ [Request.valuation pid]
        if valStatus == 200 then
          (⟨TestStatus.success, "Successfully fetched valuation history"⟩, reqs)
        else
          (⟨TestStatus.error, "Failed to get valuation history: " ++ toString valStatus⟩, reqs)

/-! ### Helper lemmas -/

theorem dedupKeys_ne_nil {l : List String} (h : l ≠ []) : dedupKeys l ≠ [] := by
  cases l with
  | nil => exact absurd rfl h
  | cons c cs => simp [dedupKeys]

theorem zip_map_zip (as : List String) (bs : List (Option Val))
    (g : String × Option Val → Option Val) :
    as.zip ((as.zip bs).map g) = (as.zip bs).map (fun p => (p.1, g p)) := by
  induction as generalizing bs with
  | nil => simp
  | cons a as ih =>
    cases bs with
    | nil => simp
    | cons b bs => simp [ih]

theorem zip_map_self {α β : Type} (as : List α) (h : α → β) :
    as.zip (as.map h) = as.map (fun a => (a, h a)) := by
  induction as with
  | nil => simp
  | cons a as ih => simp [ih]

theorem fromRecords_rows_length (recs : List Rec) :
    (DF.fromRecords recs).rows.length = recs.length := by
  simp [DF.fromRecords]

theorem fromRecords_aligned (recs : List Rec) : (DF.fromRecords recs).Aligned := by
  intro r hr
  simp only [DF.fromRecords, List.mem_map] at hr
  obtain ⟨q, _, hq⟩ := hr
  simp [DF.fromRecords, ← hq]

theorem fromRecords_isEmpty_false {recs : List Rec} (h : recs ≠ [])
    (hw : ∀ r ∈ recs, r ≠ []) : (DF.fromRecords recs).isEmptyDf = false := by
  cases recs with
  | nil => exact absurd rfl h
  | cons r rs =>
    have hr : r ≠ [] := hw r (List.mem_cons_self r rs)
    cases r with
    | nil => exact absurd rfl hr
    | cons p ps =>
      simp [DF.fromRecords, DF.isEmptyDf, dedupKeys]

theorem rename_rows (df : DF) (m : List (String × String)) :
    (df.rename m).rows = df.rows := rfl

theorem rename_cols_length (df : DF) (m : List (String × String)) :
    (df.rename m).cols.length = df.cols.length := by
  simp [DF.rename]

theorem rename_isEmpty (df : DF) (m : List (String × String)) :
    (df.rename m).isEmptyDf = df.isEmptyDf := by
  rcases df with ⟨cols, rows⟩
  cases cols <;> simp [DF.rename, DF.isEmptyDf]

theorem rename_aligned {df : DF} (h : df.Aligned) (m : List (String × String)) :
    (df.rename m).Aligned := by
  intro r hr
  rw [rename_rows] at hr
  rw [rename_cols_length]
  exact h r hr

theorem unitsDf_rows_length (d : PropertyData) :
    (unitsDf d).rows.length = d.units.length := by
  unfold unitsDf
  split
  · exact fromRecords_rows_length d.units
  · rw [rename_rows]
    exact fromRecords_rows_length d.units

theorem buildingsDf_rows_length (d : PropertyData) :
    (buildingsDf d).rows.length = d.buildings.length := by
  unfold buildingsDf
  split
  · exact fromRecords_rows_length d.buildings
  · rw [rename_rows]
    exact fromRecords_rows_length d.buildings

theorem unitsDf_isEmpty (d : PropertyData) :
    (unitsDf d).isEmptyDf = (DF.fromRecords d.units).isEmptyDf := by
  unfold unitsDf
  split
  · rfl
  · exact rename_isEmpty _ _

theorem buildingsDf_isEmpty (d : PropertyData) :
    (buildingsDf d).isEmptyDf = (DF.fromRecords d.buildings).isEmptyDf := by
  unfold buildingsDf
  split
  · rfl
  · exact rename_isEmpty _ _

theorem unitsDf_aligned (d : PropertyData) : (unitsDf d).Aligned := by
  unfold unitsDf
  split
  · exact fromRecords_aligned d.units
  · exact rename_aligned (fromRecords_aligned d.units) _

theorem buildingsDf_aligned (d : PropertyData) : (buildingsDf d).Aligned := by
  unfold buildingsDf
  split
  · exact fromRecords_aligned d.buildings
  · exact rename_aligned (fromRecords_aligned d.buildings) _

theorem crossJoin_rows_length (u b : DF) :
    (DF.crossJoin u b).rows.length = u.rows.length * b.rows.length := by
  simp only [DF.crossJoin]
  induction u.rows with
  | nil => simp
  | cons r rs ih =>
    simp only [List.map_cons, List.flatten_cons, List.length_append, List.length_map,
      List.length_cons, ih]
    ring

theorem crossJoin_aligned {u b : DF} (hu : u.Aligned) (hb : b.Aligned) :
    (DF.crossJoin u b).Aligned := by
  intro r hr
  simp only [DF.crossJoin, List.mem_flatten, List.mem_map] at hr
  obtain ⟨l, ⟨ru, hru, hl⟩, hrl⟩ := hr
  subst hl
  simp only [List.mem_map] at hrl
  obtain ⟨rb, hrb, hr⟩ := hrl
  subst hr
  simp [DF.crossJoin, hu ru hru, hb rb hrb]

theorem assign_rows_length (df : DF) (c : String) (v : Option Val) :
    (df.assign c v).rows.length = df.rows.length := by
  unfold DF.assign
  split <;> simp

theorem assign_aligned {df : DF} (h : df.Aligned) (c : String) (v : Option Val) :
    (df.assign c v).Aligned := by
  unfold DF.assign
  split
  · intro r hr
    simp only [List.mem_map] at hr
    obtain ⟨q, hq, hrq⟩ := hr
    simp [← hrq, List.length_zip, h q hq]
  · intro r hr
    simp only [List.mem_map] at hr
    obtain ⟨q, hq, hrq⟩ := hr
    simp [← hrq, h q hq]

theorem mem_assign_self (df : DF) (c : String) (v : Option Val) :
    c ∈ (df.assign c v).cols := by
  unfold DF.assign
  split
  · assumption
  · simp

theorem mem_assign_of_mem {df : DF} {x : String} (h : x ∈ df.cols)
    (c : String) (v : Option Val) : x ∈ (df.assign c v).cols := by
  unfold DF.assign
  split
  · exact h
  · simp [h]

theorem assign_colConst {df : DF} (h : df.Aligned) (c : String) (v : Option Val) :
    (df.assign c v).ColConst c v := by
  unfold DF.assign
  split
  · intro r hr p hp hpc
    simp only [List.mem_map] at hr
    obtain ⟨q, hq, hrq⟩ := hr
    subst hrq
    rw [zip_map_zip] at hp
    simp only [List.mem_map] at hp
    obtain ⟨w, _, hpw⟩ := hp
    subst hpw
    simp only at hpc
    simp [hpc]
  · intro r hr p hp hpc
    simp only [List.mem_map] at hr
    obtain ⟨q, hq, hrq⟩ := hr
    subst hrq
    rw [List.zip_append (h q hq).symm] at hp
    rcases List.mem_append.1 hp with hp | hp
    · have h1 : p.1 ∈ df.cols := by
        rcases p with ⟨a, w⟩
        exact (List.of_mem_zip hp).1
      rw [hpc] at h1
      exact absurd h1 (by assumption)
    · simp only [List.zip_cons_cons, List.zip_nil_right, List.mem_singleton] at hp
      subst hp
      rfl

theorem assign_colConst_preserve {df : DF} {c : String} {v : Option Val}
    (hal : df.Aligned) (hcc : df.ColConst c v) {x : String} (hne : x ≠ c)
    (w : Option Val) : (df.assign x w).ColConst c v := by
  unfold DF.assign
  split
  · intro r hr p hp hpc
    simp only [List.mem_map] at hr
    obtain ⟨q, hq, hrq⟩ := hr
    subst hrq
    rw [zip_map_zip] at hp
    simp only [List.mem_map] at hp
    obtain ⟨u, hu, hpu⟩ := hp
    subst hpu
    simp only at hpc
    have hux : u.1 ≠ x := by
      rw [hpc]
      exact fun hx => hne hx.symm
    simp only [if_neg hux]
    exact hcc q hq u hu hpc
  · intro r hr p hp hpc
    simp only [List.mem_map] at hr
    obtain ⟨q, hq, hrq⟩ := hr
    subst hrq
    rw [List.zip_append (hal q hq).symm] at hp
    rcases List.mem_append.1 hp with hp | hp
    · exact hcc q hq p hp hpc
    · simp only [List.zip_cons_cons, List.zip_nil_right] at hp
      simp only [List.mem_singleton] at hp
      subst hp
      simp only at hpc
      exact absurd hpc hne

theorem colConst_getD {df : DF} {c : String} {v : Option Val}
    (hal : df.Aligned) (hcc : df.ColConst c v) {r : List (Option Val)}
    (hr : r ∈ df.rows) (hc : c ∈ df.cols) :
    r.getD (df.cols.indexOf c) none = v := by
  have hlt : df.cols.indexOf c < df.cols.length := List.indexOf_lt_length.2 hc
  have hltr : df.cols.indexOf c < r.length := by rw [hal r hr]; exact hlt
  have hltz : df.cols.indexOf c < (df.cols.zip r).length := by
    rw [List.length_zip]
    exact lt_min hlt hltr
  have hmem : (df.cols.zip r).get ⟨df.cols.indexOf c, hltz⟩ ∈ df.cols.zip r :=
    List.get_mem _ _ _
  have hgz : (df.cols.zip r).get ⟨df.cols.indexOf c, hltz⟩ =
      (df.cols.get ⟨df.cols.indexOf c, hlt⟩, r.get ⟨df.cols.indexOf c, hltr⟩) := by
    simp [List.get_eq_getElem, List.getElem_zip]
  have h1 : ((df.cols.zip r).get ⟨df.cols.indexOf c, hltz⟩).1 = c := by
    rw [hgz]
    exact List.indexOf_get hlt
  have h2 := hcc r hr _ hmem h1
  rw [hgz] at h2
  rw [List.getD_eq_get _ _ hltr]
  exact h2

theorem select_eq_some {df : DF} {cs : List String} (h : ∀ c ∈ cs, c ∈ df.cols) :
    df.select cs = some
      ⟨cs, df.rows.map (fun r => cs.map (fun c => r.getD (df.cols.indexOf c) none))⟩ := by
  unfold DF.select
  rw [if_pos]
  rw [List.all_eq_true]
  intro c hc
  exact decide_eq_true (h c hc)

theorem select_colConst {df : DF} {cs : List String} {df' : DF} {c : String}
    {v : Option Val} (hal : df.Aligned) (hcc : df.ColConst c v)
    (h : df.select cs = some df') : df'.ColConst c v := by
  unfold DF.select at h
  split at h
  case isTrue hall =>
    injection h with h
    subst h
    intro r hr p hp hpc
    simp only [List.mem_map] at hr
    obtain ⟨q, hq, hrq⟩ := hr
    subst hrq
    simp only at hp
    rw [zip_map_self] at hp
    simp only [List.mem_map] at hp
    obtain ⟨a, ha, hpa⟩ := hp
    subst hpa
    simp only at hpc
    subst hpc
    have hcmem : a ∈ df.cols := by
      rw [List.all_eq_true] at hall
      exact of_decide_eq_true (hall a ha)
    exact colConst_getD hal hcc hq hcmem
  case isFalse => exact absurd h (by simp)

theorem fromRecords_nil : DF.fromRecords [] = ⟨[], []⟩ := rfl

theorem mergedBase_aligned (d : PropertyData) : (mergedBase d).Aligned := by
  unfold mergedBase
  split
  · exact crossJoin_aligned (unitsDf_aligned d) (buildingsDf_aligned d)
  · split
    · exact unitsDf_aligned d
    · split
      · exact buildingsDf_aligned d
      · intro r hr
        exact absurd hr (by simp)

theorem stamped_aligned (bfe : Int) (d : PropertyData) (ts : String) :
    (stamped bfe d ts).Aligned :=
  assign_aligned (assign_aligned (assign_aligned (mergedBase_aligned d) _ _) _ _) _ _

theorem stamped_rows_length (bfe : Int) (d : PropertyData) (ts : String) :
    (stamped bfe d ts).rows.length = (mergedBase d).rows.length := by
  unfold stamped
  rw [assign_rows_length, assign_rows_length, assign_rows_length]

theorem stamped_mem_propertyId (bfe : Int) (d : PropertyData) (ts : String) :
    "propertyId" ∈ (stamped bfe d ts).cols :=
  mem_assign_of_mem (mem_assign_of_mem (mem_assign_self _ _ _) _ _) _ _

theorem stamped_mem_bfe (bfe : Int) (d : PropertyData) (ts : String) :
    "bfe_number" ∈ (stamped bfe d ts).cols :=
  mem_assign_of_mem (mem_assign_self _ _ _) _ _

theorem stamped_mem_timestamp (bfe : Int) (d : PropertyData) (ts : String) :
    "timestamp" ∈ (stamped bfe d ts).cols :=
  mem_assign_self _ _ _

theorem stamped_colConst_bfe (bfe : Int) (d : PropertyData) (ts : String) :
    (stamped bfe d ts).ColConst "bfe_number" (some (bfeStamp bfe d)) := by
  unfold stamped
  exact assign_colConst_preserve
    (assign_aligned (assign_aligned (mergedBase_aligned d) _ _) _ _)
    (assign_colConst (assign_aligned (mergedBase_aligned d) _ _) _ _)
    (by decide) _

theorem mem_requestedCols {fs : List String} {m : DF} {c : String} :
    c ∈ requestedCols fs m ↔
      c ∈ fs ∧ c ∈ ALL_AVAILABLE_PROCESSED_FIELDS ∧ c ∈ m.cols := by
  simp [requestedCols, List.mem_filter, and_assoc]

theorem mem_defaultFilter {m : DF} {c : String}
    (h : c ∈ DEFAULT_OUTPUT_FIELDS.filter (fun x => decide (x ∈ m.cols))) :
    c ∈ ALL_AVAILABLE_PROCESSED_FIELDS ∧ c ∈ m.cols := by
  rw [List.mem_filter] at h
  exact ⟨h.1, of_decide_eq_true h.2⟩

theorem mem_columnsToSelect {fields : Option (List String)} {m : DF} {c : String}
    (h : c ∈ columnsToSelect fields m) :
    c ∈ ALL_AVAILABLE_PROCESSED_FIELDS ∧ c ∈ m.cols := by
  rcases fields with _ | fs
  · exact mem_defaultFilter h
  · cases fs with
    | nil => exact mem_defaultFilter h
    | cons f fs =>
      simp only [columnsToSelect] at h
      split at h
      · exact mem_defaultFilter h
      · rw [mem_requestedCols] at h
        exact ⟨h.2.1, h.2.2⟩

theorem columnsToSelect_isEmpty_false {m : DF} (h : "propertyId" ∈ m.cols)
    (fields : Option (List String)) : (columnsToSelect fields m).isEmpty = false := by
  have hdef : (DEFAULT_OUTPUT_FIELDS.filter (fun c => decide (c ∈ m.cols))).isEmpty
      = false := by
    rw [List.isEmpty_eq_false]
    intro hnil
    have hmem : "propertyId" ∈ DEFAULT_OUTPUT_FIELDS.filter
        (fun c => decide (c ∈ m.cols)) := by
      rw [List.mem_filter]
      exact ⟨by decide, decide_eq_true h⟩
    rw [hnil] at hmem
    exact absurd hmem (List.not_mem_nil _)
  rcases fields with _ | fs
  · exact hdef
  · cases fs with
    | nil => exact hdef
    | cons f fs =>
      simp only [columnsToSelect]
      split
      · exact hdef
      · rename_i hreq
        rw [Bool.not_eq_true] at hreq
        exact hreq

theorem selectedCols_eq (bfe : Int) (fields : Option (List String)) (d : PropertyData)
    (ts : String) :
    selectedCols bfe fields d ts = columnsToSelect fields (stamped bfe d ts) := by
  unfold selectedCols
  rw [columnsToSelect_isEmpty_false (stamped_mem_propertyId bfe d ts) fields]
  simp

theorem executeTable_guard (d : PropertyData) :
    ((mergedBase d).isEmptyDf && d.units.isEmpty && d.buildings.isEmpty)
      = (d.units.isEmpty && d.buildings.isEmpty) := by
  rcases d with ⟨pid, bapi, units, buildings⟩
  cases units with
  | cons u us => simp
  | nil =>
    cases buildings with
    | cons b bs => simp
    | nil =>
      simp [mergedBase, unitsDf, buildingsDf, fromRecords_nil, DF.isEmptyDf]

theorem executeTable_empty_eq (bfe : Int) (fields : Option (List String))
    (d : PropertyData) (ts : String) (hu : d.units = []) (hb : d.buildings = []) :
    executeTable bfe fields d ts =
      ExecResult.result (Output.message (noDataMessage bfe d.propertyId)) := by
  unfold executeTable
  rw [executeTable_guard d, hu, hb]
  simp

theorem executeTable_eq_table (bfe : Int) (fields : Option (List String))
    (d : PropertyData) (ts : String)
    (h : (d.units.isEmpty && d.buildings.isEmpty) = false) :
    executeTable bfe fields d ts = ExecResult.result (Output.table
      ⟨columnsToSelect fields (stamped bfe d ts),
       (stamped bfe d ts).rows.map (fun r =>
         (columnsToSelect fields (stamped bfe d ts)).map
           (fun c => r.getD ((stamped bfe d ts).cols.indexOf c) none))⟩) := by
  have hsub : ∀ c ∈ columnsToSelect fields (stamped bfe d ts),
      c ∈ (stamped bfe d ts).cols :=
    fun c hc => (mem_columnsToSelect hc).2
  unfold executeTable
  rw [executeTable_guard d, h, if_neg Bool.false_ne_true, selectedCols_eq,
    columnsToSelect_isEmpty_false (stamped_mem_propertyId bfe d ts) fields,
    Bool.false_and, if_neg Bool.false_ne_true, select_eq_some hsub]

theorem unitsDf_isEmpty_false {d : PropertyData} (h : d.units ≠ [])
    (hw : ∀ r ∈ d.units, r ≠ []) : (unitsDf d).isEmptyDf = false := by
  rw [unitsDf_isEmpty]
  exact fromRecords_isEmpty_false h hw

theorem buildingsDf_isEmpty_false {d : PropertyData} (h : d.buildings ≠ [])
    (hw : ∀ r ∈ d.buildings, r ≠ []) : (buildingsDf d).isEmptyDf = false := by
  rw [buildingsDf_isEmpty]
  exact fromRecords_isEmpty_false h hw

theorem mergedBase_rows_both {d : PropertyData} (hu : d.units ≠ [])
    (hwu : ∀ r ∈ d.units, r ≠ []) (hb : d.buildings ≠ [])
    (hwb : ∀ r ∈ d.buildings, r ≠ []) :
    (mergedBase d).rows.length = d.units.length * d.buildings.length := by
  unfold mergedBase
  rw [unitsDf_isEmpty_false hu hwu, buildingsDf_isEmpty_false hb hwb]
  simp [crossJoin_rows_length, unitsDf_rows_length, buildingsDf_rows_length]

theorem mergedBase_rows_units_only {d : PropertyData} (hu : d.units ≠ [])
    (hwu : ∀ r ∈ d.units, r ≠ []) (hb : d.buildings = []) :
    (mergedBase d).rows.length = d.units.length := by
  unfold mergedBase
  rw [unitsDf_isEmpty_false hu hwu]
  have hbe : (buildingsDf d).isEmptyDf = true := by
    rw [buildingsDf_isEmpty, hb, fromRecords_nil]
    rfl
  rw [hbe]
  simp [unitsDf_rows_length]

theorem mergedBase_rows_buildings_only {d : PropertyData} (hu : d.units = [])
    (hb : d.buildings ≠ []) (hwb : ∀ r ∈ d.buildings, r ≠ []) :
    (mergedBase d).rows.length = d.buildings.length := by
  unfold mergedBase
  rw [buildingsDf_isEmpty_false hb hwb]
  have hue : (unitsDf d).isEmptyDf = true := by
    rw [unitsDf_isEmpty, hu, fromRecords_nil]
    rfl
  rw [hue]
  simp [buildingsDf_rows_length]

theorem outRowCount_executeTable {bfe : Int} {fields : Option (List String)}
    {d : PropertyData} {ts : String}
    (h : (d.units.isEmpty && d.buildings.isEmpty) = false) :
    outRowCount (executeTable bfe fields d ts) = some (mergedBase d).rows.length := by
  rw [executeTable_eq_table bfe fields d ts h]
  simp [outRowCount, stamped_rows_length]

/-! ### Claims -/

/-- C1 (counterexample): for a found property whose `units` and
`buildings` sub-collections are both empty, the normalization does NOT
produce exactly one identity-only row — it produces no row table at all
(the tool returns a plain explanatory message instead). -/
theorem C1_cex :
    outRowCount (executeTable 42 none
      ⟨some (Val.str "abc"), none, [], []⟩ "T") ≠ some 1 := by decide

/-- C1 (amended): for records whose unit/building objects each carry at
least one field, the row count after normalization is
`|units| * |buildings|` when both sub-collections are non-empty,
`|units|` when only units are non-empty and `|buildings|` when only
buildings are; when both are empty, no row table is produced at all —
the operation returns a plain explanatory string instead of a single
identity-only row. -/
theorem C1_row_counts (bfe : Int) (fields : Option (List String)) (d : PropertyData)
    (ts : String) (hu : ∀ r ∈ d.units, r ≠ []) (hb : ∀ r ∈ d.buildings, r ≠ []) :
    (d.units ≠ [] → d.buildings ≠ [] →
      outRowCount (executeTable bfe fields d ts)
        = some (d.units.length * d.buildings.length)) ∧
    (d.units ≠ [] → d.buildings = [] →
      outRowCount (executeTable bfe fields d ts) = some d.units.length) ∧
    (d.units = [] → d.buildings ≠ [] →
      outRowCount (executeTable bfe fields d ts) = some d.buildings.length) ∧
    (d.units = [] → d.buildings = [] →
      outRowCount (executeTable bfe fields d ts) = none) := by
  refine ⟨?_, ?_, ?_, ?_⟩
  · intro h1 h2
    rw [outRowCount_executeTable (by simp [List.isEmpty_eq_false.mpr h1])]
    rw [mergedBase_rows_both h1 hu h2 hb]
  · intro h1 h2
    rw [outRowCount_executeTable (by simp [List.isEmpty_eq_false.mpr h1])]
    rw [mergedBase_rows_units_only h1 hu h2]
  · intro h1 h2
    rw [outRowCount_executeTable (by simp [List.isEmpty_eq_false.mpr h2])]
    rw [mergedBase_rows_buildings_only h1 h2 hb]
  · intro h1 h2
    rw [executeTable_empty_eq bfe fields d ts h1 h2]
    rfl

/-- C1 (witness): two well-formed units crossed with one building give
2 * 1 rows. -/
theorem C1_witness :
    outRowCount (executeTable 42 none
      ⟨some (Val.str "abc"), none,
       [[("id", Val.str "u1")], [("id", Val.str "u2")]],
       [[("id", Val.str "b1")]]⟩ "T") = some (2 * 1) :=
  (C1_row_counts 42 none
      ⟨some (Val.str "abc"), none,
       [[("id", Val.str "u1")], [("id", Val.str "u2")]],
       [[("id", Val.str "b1")]]⟩ "T"
      (by decide) (by decide)).1 (by decide) (by decide)

/-- C2: when both sub-collections are empty the operation returns a
SUCCESS result (a `ToolResult`, not a `ToolFailure`) whose output is the
plain explanatory string of line 110, which names the requested BFE
number and the property identifier — not a JSON row array. -/
theorem C2_empty_message (bfe : Int) (fields : Option (List String)) (d : PropertyData)
    (ts : String) (hu : d.units = []) (hb : d.buildings = []) :
    executeTable bfe fields d ts =
      ExecResult.result (Output.message (noDataMessage bfe d.propertyId)) :=
  executeTable_empty_eq bfe fields d ts hu hb

/-- C2 (witness): concrete empty-record run, with the interpolated
message spelled out. -/
theorem C2_witness :
    executeTable 42 none ⟨some (Val.str "abc-123"), none, [], []⟩ "T" =
      ExecResult.result (Output.message
        "No BBR units or buildings data found for BFE 42. Raw property ID: abc-123") :=
  C2_empty_message 42 none ⟨some (Val.str "abc-123"), none, [], []⟩ "T" rfl rfl

/-- C3: output columns are exactly the requested fields that are both in
the catalog and present in the computed table, in the caller's requested
order; a field outside the catalog never appears; when no requested
field is valid and present, or when no (or an empty) field list was
supplied, the columns are the full default catalog intersected with the
present columns. -/
theorem C3_projection (bfe : Int) (d : PropertyData) (ts : String)
    (fields : Option (List String)) (df : DF)
    (h : executeTable bfe fields d ts = ExecResult.result (Output.table df)) :
    (∀ f fs, fields = some (f :: fs) →
      (requestedCols (f :: fs) (stamped bfe d ts) ≠ [] →
        df.cols = requestedCols (f :: fs) (stamped bfe d ts) ∧
        ∀ c, c ∈ df.cols ↔ c ∈ f :: fs ∧ c ∈ ALL_AVAILABLE_PROCESSED_FIELDS ∧
          c ∈ (stamped bfe d ts).cols) ∧
      (requestedCols (f :: fs) (stamped bfe d ts) = [] →
        df.cols = DEFAULT_OUTPUT_FIELDS.filter
          (fun c => decide (c ∈ (stamped bfe d ts).cols)))) ∧
    ((fields = none ∨ fields = some []) →
      df.cols = DEFAULT_OUTPUT_FIELDS.filter
        (fun c => decide (c ∈ (stamped bfe d ts).cols))) ∧
    (∀ c ∈ df.cols, c ∈ ALL_AVAILABLE_PROCESSED_FIELDS) := by
  have hg : (d.units.isEmpty && d.buildings.isEmpty) = false := by
    by_contra hgg
    rw [Bool.not_eq_false, Bool.and_eq_true, List.isEmpty_iff, List.isEmpty_iff] at hgg
    rw [executeTable_empty_eq bfe fields d ts hgg.1 hgg.2] at h
    cases h
  have hcols : df.cols = columnsToSelect fields (stamped bfe d ts) := by
    rw [executeTable_eq_table bfe fields d ts hg] at h
    injection h with h1
    injection h1 with h2
    rw [← h2]
  refine ⟨?_, ?_, ?_⟩
  · intro f fs hf
    subst hf
    constructor
    · intro hreq
      have he : (requestedCols (f :: fs) (stamped bfe d ts)).isEmpty = false :=
        List.isEmpty_eq_false.mpr hreq
      constructor
      · rw [hcols]
        simp [columnsToSelect, he]
      · intro c
        rw [hcols]
        simp only [columnsToSelect, he, Bool.false_eq_true, if_false]
        exact mem_requestedCols
    · intro hreq
      rw [hcols]
      simp [columnsToSelect, hreq]
  · rintro (hf | hf) <;> subst hf <;> rw [hcols] <;> rfl
  · intro c hc
    rw [hcols] at hc
    exact (mem_columnsToSelect hc).1

/-- C3 (witness): requesting `["timestamp", "bogus", "bbr.units.id"]` on a
one-unit record keeps the two catalog fields in the requested order and
drops the invalid one. -/
theorem C3_witness :
    DF.cols ⟨["timestamp", "bbr.units.id"],
        [[some (Val.str "T"), some (Val.str "u1")]]⟩
      = requestedCols ["timestamp", "bogus", "bbr.units.id"]
          (stamped 42 ⟨some (Val.str "abc"), none, [[("id", Val.str "u1")]], []⟩ "T") :=
  (((C3_projection 42 ⟨some (Val.str "abc"), none, [[("id", Val.str "u1")]], []⟩ "T"
        (some ["timestamp", "bogus", "bbr.units.id"])
        ⟨["timestamp", "bbr.units.id"], [[some (Val.str "T"), some (Val.str "u1")]]⟩
        (by decide)).1
      "timestamp" ["bogus", "bbr.units.id"] rfl).1 (by decide)).1

/-- C4 (counterexample): with the caller projection `["bbr.units.id"]` the
output table has exactly one row yet carries neither `bfe_number` nor the
other identity fields, so output rows do NOT carry the three
identity/metadata fields regardless of the requested projection. -/
theorem C4_cex :
    outputHasCol (executeTable 42 (some ["bbr.units.id"])
        ⟨some (Val.str "abc"), none, [[("id", Val.str "u1")]], []⟩ "T") "bfe_number"
      = false ∧
    outRowCount (executeTable 42 (some ["bbr.units.id"])
        ⟨some (Val.str "abc"), none, [[("id", Val.str "u1")]], []⟩ "T") = some 1 := by
  decide

/-- C4 (amended): the stamped (pre-projection) table always carries the
three identity/metadata columns `propertyId`, `bfe_number`, `timestamp`
regardless of sub-collection emptiness, every stamped row has a cell for
each column, and under the default projection (no caller field list) all
three appear in the output table; a caller-supplied projection may drop
them from the serialized output. -/
theorem C4_identity_fields (bfe : Int) (d : PropertyData) (ts : String) :
    ("propertyId" ∈ (stamped bfe d ts).cols ∧
     "bfe_number" ∈ (stamped bfe d ts).cols ∧
     "timestamp" ∈ (stamped bfe d ts).cols) ∧
    (∀ r ∈ (stamped bfe d ts).rows, r.length = (stamped bfe d ts).cols.length) ∧
    (∀ df, executeTable bfe none d ts = ExecResult.result (Output.table df) →
      "propertyId" ∈ df.cols ∧ "bfe_number" ∈ df.cols ∧ "timestamp" ∈ df.cols) := by
  refine ⟨⟨stamped_mem_propertyId bfe d ts, stamped_mem_bfe bfe d ts,
    stamped_mem_timestamp bfe d ts⟩, stamped_aligned bfe d ts, ?_⟩
  intro df h
  have hg : (d.units.isEmpty && d.buildings.isEmpty) = false := by
    by_contra hgg
    rw [Bool.not_eq_false, Bool.and_eq_true, List.isEmpty_iff, List.isEmpty_iff] at hgg
    rw [executeTable_empty_eq bfe none d ts hgg.1 hgg.2] at h
    cases h
  have hcols : df.cols = columnsToSelect none (stamped bfe d ts) := by
    rw [executeTable_eq_table bfe none d ts hg] at h
    injection h with h1
    injection h1 with h2
    rw [← h2]
  have hred : columnsToSelect none (stamped bfe d ts)
      = DEFAULT_OUTPUT_FIELDS.filter
          (fun c => decide (c ∈ (stamped bfe d ts).cols)) := rfl
  rw [hcols, hred]
  refine ⟨?_, ?_, ?_⟩
  · rw [List.mem_filter]
    exact ⟨by decide, decide_eq_true (stamped_mem_propertyId bfe d ts)⟩
  · rw [List.mem_filter]
    exact ⟨by decide, decide_eq_true (stamped_mem_bfe bfe d ts)⟩
  · rw [List.mem_filter]
    exact ⟨by decide, decide_eq_true (stamped_mem_timestamp bfe d ts)⟩

/-- C4 (witness): on a concrete one-unit record under the default
projection, the output table carries all three identity fields. -/
theorem C4_witness :
    "propertyId" ∈ DF.cols ⟨["propertyId", "bfe_number", "bbr.units.id", "timestamp"],
        [[some (Val.str "abc"), some (Val.int 42), some (Val.str "u1"),
          some (Val.str "T")]]⟩ ∧
    "bfe_number" ∈ DF.cols ⟨["propertyId", "bfe_number", "bbr.units.id", "timestamp"],
        [[some (Val.str "abc"), some (Val.int 42), some (Val.str "u1"),
          some (Val.str "T")]]⟩ :=
  have h := (C4_identity_fields 42
      ⟨some (Val.str "abc"), none, [[("id", Val.str "u1")]], []⟩ "T").2.2
      ⟨["propertyId", "bfe_number", "bbr.units.id", "timestamp"],
       [[some (Val.str "abc"), some (Val.int 42), some (Val.str "u1"),
         some (Val.str "T")]]⟩ (by decide)
  ⟨h.1, h.2.1⟩

/-- C5: every cell under a `bfe_number` column — in the stamped table and
in any row-table output — equals the registry-returned BFE value when the
registry supplied one, and the originally requested BFE number
otherwise. -/
theorem C5_bfe_value (bfe : Int) (fields : Option (List String)) (d : PropertyData)
    (ts : String) :
    (stamped bfe d ts).ColConst "bfe_number"
      (some (match d.bfe_number_api with | some v => v | none => Val.int bfe)) ∧
    (∀ df, executeTable bfe fields d ts = ExecResult.result (Output.table df) →
      df.ColConst "bfe_number"
        (some (match d.bfe_number_api with | some v => v | none => Val.int bfe))) := by
  have hb : (match d.bfe_number_api with | some v => v | none => Val.int bfe)
      = bfeStamp bfe d := by
    rcases hx : d.bfe_number_api with _ | v <;> simp [bfeStamp, hx]
  rw [hb]
  refine ⟨stamped_colConst_bfe bfe d ts, ?_⟩
  intro df h
  have hg : (d.units.isEmpty && d.buildings.isEmpty) = false := by
    by_contra hgg
    rw [Bool.not_eq_false, Bool.and_eq_true, List.isEmpty_iff, List.isEmpty_iff] at hgg
    rw [executeTable_empty_eq bfe fields d ts hgg.1 hgg.2] at h
    cases h
  rw [executeTable_eq_table bfe fields d ts hg] at h
  injection h with h1
  injection h1 with h2
  have hsel : (stamped bfe d ts).select (columnsToSelect fields (stamped bfe d ts))
      = some df := by
    rw [select_eq_some (fun c hc => (mem_columnsToSelect hc).2), h2]
  exact select_colConst (stamped_aligned bfe d ts) (stamped_colConst_bfe bfe d ts) hsel

/-- C5 (witness): the registry omitted `bfe_number`, so the output cell
under the `bfe_number` column is the requested number 42. -/
theorem C5_witness :
    DF.ColConst
      ⟨["propertyId", "bfe_number", "bbr.units.id", "timestamp"],
       [[some (Val.str "abc"), some (Val.int 42), some (Val.str "u1"),
         some (Val.str "T")]]⟩
      "bfe_number" (some (Val.int 42)) :=
  (C5_bfe_value 42 none ⟨some (Val.str "abc"), none, [[("id", Val.str "u1")]], []⟩ "T").2
    ⟨["propertyId", "bfe_number", "bbr.units.id", "timestamp"],
     [[some (Val.str "abc"), some (Val.int 42), some (Val.str "u1"),
       some (Val.str "T")]]⟩ (by decide)

/-- C6 (counterexample): an authorization-denied 403 response produces
exactly the same generic `ToolFailure` shape as a 500 response — both go
through the single `HTTPStatusError` handler and the single
`httpErrorMessage` template, so no `Unauthorized` failure kind distinct
from the `Upstream` kind exists. -/
theorem C6_cex :
    executeFetch 42 none 403 "Forbidden" none "T"
        = ExecResult.failure (httpErrorMessage 42 403 "Forbidden") ∧
    executeFetch 42 none 500 "Server Error" none "T"
        = ExecResult.failure (httpErrorMessage 42 500 "Server Error") := by decide

/-- C6 (amended): a 401/403 registry response makes the operation fail
with the same generic failure as any other non-success status; the
failure kinds are distinguishable only through the status code embedded
in the error message, not through a distinct `Unauthorized` kind. -/
theorem C6_uniform_failure (bfe : Int) (fields : Option (List String)) (status : Nat)
    (text : String) (parsed : Option PropertyData) (ts : String)
    (h : isSuccessStatus status = false) :
    executeFetch bfe fields status text parsed ts
      = ExecResult.failure (httpErrorMessage bfe status text) := by
  simp [executeFetch, h]

/-- C6 (witness): concrete 403 run through the amended statement. -/
theorem C6_witness :
    executeFetch 7 none 403 "denied" none "T"
      = ExecResult.failure (httpErrorMessage 7 403 "denied") :=
  C6_uniform_failure 7 none 403 "denied" none "T" (by decide)

/-- C7 (counterexample): a result list wrapped under `results` (or
`items`) with a perfectly valid id is NOT resolved — only the `data`
wrapper key works, so there is no ordered fallback over several wrapper
keys. -/
theorem C7_cex :
    resolvePropertyId [("results", [[("id", Val.str "abc-123")]])]
        = ResolveOutcome.noId ∧
    resolvePropertyId [("items", [[("id", Val.str "abc-123")]])]
        = ResolveOutcome.noId ∧
    resolvePropertyId [("data", [[("id", Val.str "abc-123")]])]
        = ResolveOutcome.found (Val.str "abc-123") := by decide

/-- C7 (amended): the identifier resolver consults only the top-level
`data` wrapper key; when `data` is absent the default `[{}]` applies and
resolution fails with no id, whatever other wrapper keys (such as
`results` or `items`) the response carries. -/
theorem C7_only_data_key (body : SearchBody) (h : body.lookup "data" = none) :
    resolvePropertyId body = ResolveOutcome.noId := by
  unfold resolvePropertyId
  rw [h]

/-- C7 (witness): a response offering both `results` and `items` but no
`data` fails to resolve. -/
theorem C7_witness :
    resolvePropertyId [("results", [[("id", Val.str "r-1")]]),
        ("items", [[("id", Val.str "i-1")]])] = ResolveOutcome.noId :=
  C7_only_data_key _ (by decide)

/-- C8: when identifier resolution fails on a successful search
response, the flow reports an error (the dedicated "Could not find
property ID in response" outcome when the id is merely missing/falsy)
and never issues a request to the valuation sub-resource endpoint. -/
theorem C8_no_valuation_after_failed_resolution (body : SearchBody) (valStatus : Nat)
    (h : (resolvePropertyId body).isFound = false) :
    (testFlow 200 body valStatus).1.status = TestStatus.error ∧
    (resolvePropertyId body = ResolveOutcome.noId →
      (testFlow 200 body valStatus).1.message
        = "Could not find property ID in response") ∧
    (∀ pid, Request.valuation pid ∉ (testFlow 200 body valStatus).2) := by
  rcases hres : resolvePropertyId body with v | _ | _
  · rw [hres] at h
    simp [ResolveOutcome.isFound] at h
  · refine ⟨by simp [testFlow, hres], ?_, ?_⟩
    · intro _
      simp [testFlow, hres]
    · intro pid
      simp [testFlow, hres]
  · refine ⟨by simp [testFlow, hres], ?_, ?_⟩
    · intro hcon
      cases hcon
    · intro pid
      simp [testFlow, hres]

/-- C8 (witness): a 200 search response with no recognizable wrapper
resolves to nothing; the report is an error and the request trace
contains no valuation call. -/
theorem C8_witness :
    (testFlow 200 [] 200).1.status = TestStatus.error ∧
    Request.valuation (Val.str "abc") ∉ (testFlow 200 [] 200).2 :=
  have h := C8_no_valuation_after_failed_resolution [] 200 (by decide)
  ⟨h.1, h.2.2 (Val.str "abc")⟩

/-- C9: the generic gateway turns a 204 response into the synthetic
success marker independently of the response body (no body parsing), and
every non-success status into an `Upstream` failure carrying the status
code and the response body text. -/
theorem C9_gateway_status_handling (status : Nat) (text : String)
    (h : isSuccessStatus status = false) :
    gatewayExecute status text
        = GatewayResult.failure (gatewayErrorMessage status text) ∧
    (∀ body : String, gatewayExecute 204 body = GatewayResult.marker) := by
  refine ⟨by simp [gatewayExecute, h], ?_⟩
  intro body
  rfl

/-- C9 (witness): 503 yields the failure with code and body; 204 yields
the marker whatever the body is. -/
theorem C9_witness :
    gatewayExecute 503 "unavailable"
        = GatewayResult.failure (gatewayErrorMessage 503 "unavailable") ∧
    gatewayExecute 204 "ignored body" = GatewayResult.marker :=
  have h := C9_gateway_status_handling 503 "unavailable" (by decide)
  ⟨h.1, h.2 "ignored body"⟩

/-- C10: every column name placed in the final selection list is present
in the stamped table, the pandas column selection therefore never raises
`KeyError`, and the tool never returns the corresponding unexpected-error
failure. -/
theorem C10_select_total (bfe : Int) (fields : Option (List String)) (d : PropertyData)
    (ts : String) :
    (∀ c ∈ columnsToSelect fields (stamped bfe d ts), c ∈ (stamped bfe d ts).cols) ∧
    (stamped bfe d ts).select (columnsToSelect fields (stamped bfe d ts)) ≠ none ∧
    executeTable bfe fields d ts
      ≠ ExecResult.failure (unexpectedErrorMessage bfe "KeyError") := by
  have hsub : ∀ c ∈ columnsToSelect fields (stamped bfe d ts),
      c ∈ (stamped bfe d ts).cols :=
    fun c hc => (mem_columnsToSelect hc).2
  refine ⟨hsub, ?_, ?_⟩
  · rw [select_eq_some hsub]
    simp
  · by_cases hg : (d.units.isEmpty && d.buildings.isEmpty) = true
    · rw [Bool.and_eq_true, List.isEmpty_iff, List.isEmpty_iff] at hg
      rw [executeTable_empty_eq bfe fields d ts hg.1 hg.2]
      simp
    · rw [Bool.not_eq_true] at hg
      rw [executeTable_eq_table bfe fields d ts hg]
      simp

/-- C10 (witness): concrete run of the selection-totality statement. -/
theorem C10_witness :
    (stamped 42 ⟨some (Val.str "abc"), none, [[("id", Val.str "u1")]], []⟩ "T").select
        (columnsToSelect none
          (stamped 42 ⟨some (Val.str "abc"), none, [[("id", Val.str "u1")]], []⟩ "T"))
      ≠ none :=
  (C10_select_total 42 none
    ⟨some (Val.str "abc"), none, [[("id", Val.str "u1")]], []⟩ "T").2.1

end Resight
